import Mathlib

set_option autoImplicit false

/-!
Shallow embedding of the Codance CRUD backend (src/codance/app), covering the
endpoint families the verified claims refer to: events / registrations,
biometric data and devices, song selections, movement patterns and detected
patterns, plus the biometric simulation's emotional-state bucketing.

Conventions of the embedding:
* The relational store is a record of lists, one per table, in insertion
  order; `query(...).first()` is `List.find?`, `.offset(skip).limit(limit).all()`
  is drop/take, `db.add` appends, `db.delete` erases the found row, and
  `setattr` on the row returned by `.first()` replaces the first match.
* `datetime.utcnow()` / `func.now()` values and autoincrement primary keys are
  passed in as explicit arguments (`now`, `new_id`).
* SQL floats are `ℚ`, timestamps are `Int` ticks, JSON columns are opaque
  `String` blobs (no handler inspects their contents).
* Nullable columns are `Option`; an update-schema field is
  `Option (column type)` where `none` means the field was absent from the
  payload (pydantic `exclude_unset`) and `some v` means it was explicitly
  present with value `v` (which can itself be a null, i.e. an inner `none`).
* Handlers return `Except HTTPError`; `HTTPException(status_code=s, detail=d)`
  is the error value `⟨s, d⟩`.
* Foreign-key id columns (`user_id`, `event_id`, `device_id`, `pattern_id`)
  are non-optional in the embedding: every create schema requires them and no
  update schema can write them, so rows reachable through the API always have
  them set.
-/

namespace Codance

/-- Model of `fastapi.HTTPException`: a status code plus a detail string. -/
structure HTTPError where
  status_code : Nat
  detail : String
deriving Repr, DecidableEq

/-- Result type of a request handler. -/
abbrev Api (α : Type) := Except HTTPError α

/-- JSON columns are stored and copied but never inspected by the handlers. -/
abbrev JsonBlob := String

/-- DateTime columns, as abstract ticks. -/
abbrev Timestamp := Int

/-- Model of `app/models/user.py`, class `User` (credential hash and audit timestamps
omitted: no modelled handler reads them). -/
structure User where
  id : Int
  email : String
  username : String
  is_active : Bool
  is_admin : Bool
deriving Repr, DecidableEq

/-- Model of `app/models/event.py`, class `Event`. -/
structure Event where
  id : Int
  name : Option String
  description : Option String
  location : Option String
  start_time : Option Timestamp
  end_time : Option Timestamp
  is_active : Option Bool
  max_capacity : Option Int
  configuration : Option JsonBlob
deriving Repr, DecidableEq

/-- Model of `app/models/event.py`, class `UserEvent` (a registration). -/
structure UserEvent where
  id : Int
  user_id : Int
  event_id : Int
  registration_time : Timestamp
  checkin_time : Option Timestamp
  checkout_time : Option Timestamp
  is_active : Option Bool
deriving Repr, DecidableEq

/-- Model of `app/models/biometrics.py`, class `BiometricData`. -/
structure BiometricData where
  id : Int
  user_id : Int
  event_id : Int
  device_id : String
  timestamp : Timestamp
  heart_rate : Option ℚ
  gsr : Option ℚ
  temperature : Option ℚ
  energy_level : Option ℚ
  emotional_state : Option String
deriving Repr, DecidableEq

/-- Model of `app/models/biometrics.py`, class `BiometricDevice`. -/
structure BiometricDevice where
  id : Int
  device_id : String
  device_type : Option String
  is_active : Option Bool
  last_connection : Option Timestamp
  created_at : Timestamp
deriving Repr, DecidableEq

/-- Model of `app/models/sound.py`, class `SongSelection`. -/
structure SongSelection where
  id : Int
  user_id : Int
  event_id : Int
  song_title : String
  artist : String
  duration : ℚ
  audio_features : Option JsonBlob
  is_approved : Option Bool
  created_at : Timestamp
deriving Repr, DecidableEq

/-- Model of `app/models/sound.py`, class `SoundPreset`. -/
structure SoundPreset where
  id : Int
  name : Option String
  description : Option String
  parameters : Option JsonBlob
  created_at : Timestamp
deriving Repr, DecidableEq

/-- Model of `app/models/movement.py`, class `MovementPattern`. -/
structure MovementPattern where
  id : Int
  name : Option String
  description : Option String
  pattern_data : Option JsonBlob
deriving Repr, DecidableEq

/-- Model of `app/models/event.py`, class `DetectedPattern`. -/
structure DetectedPattern where
  id : Int
  pattern_id : Int
  event_id : Int
  timestamp : Timestamp
  confidence : ℚ
deriving Repr, DecidableEq

/-- The relational store: one list per table, in insertion (rowid) order. -/
structure Store where
  users : List User
  events : List Event
  user_events : List UserEvent
  biometric_data : List BiometricData
  biometric_devices : List BiometricDevice
  song_selections : List SongSelection
  sound_presets : List SoundPreset
  movement_patterns : List MovementPattern
  detected_patterns : List DetectedPattern
deriving Repr, DecidableEq

/-- Model of `query.offset(skip).limit(limit).all()`. -/
def offsetLimit {α : Type} (skip limit : Nat) (xs : List α) : List α :=
  (xs.drop skip).take limit

/-- Python truthiness of an optional integer query parameter (`if x:`):
falsy when absent (`None`) and when `0`. -/
def truthyInt : Option Int → Bool
  | none => false
  | some x => x != 0

/-- Python truthiness of an optional string query parameter (`if x:`):
falsy when absent (`None`) and when the empty string. -/
def truthyStr : Option String → Bool
  | none => false
  | some s => s != ""

/-- Replace the first element satisfying `p`: `setattr` mutates the row that
`query.filter(...).first()` returned, which is the first match in table
order. -/
def updateFirst {α : Type} (p : α → Bool) (f : α → α) : List α → List α
  | [] => []
  | x :: xs => if p x then f x :: xs else x :: updateFirst p f xs

/-! ### Pydantic schemas for the events family (`app/schemas/event.py`) -/

/-- Schema `UserEventCreate`. -/
structure UserEventCreate where
  user_id : Int
  event_id : Int
  is_active : Bool := true
deriving Repr, DecidableEq

/-- Schema `UserEventUpdate`; the outer `Option` is payload presence
(`exclude_unset`), the inner value is what `setattr` would write. -/
structure UserEventUpdate where
  checkin_time : Option (Option Timestamp) := none
  checkout_time : Option (Option Timestamp) := none
  is_active : Option (Option Bool) := none
deriving Repr, DecidableEq

/-- Schema `EventCreate` (all base fields required except the ones pydantic defaults). -/
structure EventCreate where
  name : String
  description : Option String := none
  location : String
  start_time : Timestamp
  end_time : Timestamp
  is_active : Bool := false
  max_capacity : Option Int := none
  configuration : Option JsonBlob := none
deriving Repr, DecidableEq

/-- Schema `EventUpdate`. -/
structure EventUpdate where
  name : Option (Option String) := none
  description : Option (Option String) := none
  location : Option (Option String) := none
  start_time : Option (Option Timestamp) := none
  end_time : Option (Option Timestamp) := none
  is_active : Option (Option Bool) := none
  max_capacity : Option (Option Int) := none
  configuration : Option (Option JsonBlob) := none
deriving Repr, DecidableEq

/-! ### Handlers of `app/api/v1/events.py` -/

/-- Modelled from the spec: `get_current_admin_user` lives in
`app/core/auth.py`, which is not part of the source tree; §4.1 of the spec
says admin-only operations "require `caller.is_admin == true`" and the check
"fails closed with `Forbidden` otherwise". As a FastAPI dependency it runs
before the handler body. -/
def require_admin (u : User) : Api Unit :=
  if u.is_admin then .ok () else .error ⟨403, "Forbidden"⟩

/-- Handler for `POST /events/` (`create_event`, admin only). -/
def create_event (db : Store) (admin_user : User) (event : EventCreate)
    (new_id : Int) : Api (Event × Store) := do
  let _ ← require_admin admin_user
  let db_event : Event :=
    { id := new_id, name := some event.name, description := event.description,
      location := some event.location, start_time := some event.start_time,
      end_time := some event.end_time, is_active := some event.is_active,
      max_capacity := event.max_capacity, configuration := event.configuration }
  .ok (db_event, { db with events := db.events ++ [db_event] })

/-- Handler for `PUT /events/{event_id}` (`update_event`, admin only): partial merge of
the fields present in the payload. -/
def update_event (db : Store) (admin_user : User) (event_id : Int)
    (event_update : EventUpdate) : Api (Event × Store) := do
  let _ ← require_admin admin_user
  match db.events.find? (fun e => e.id == event_id) with
  | none => .error ⟨404, "Event not found"⟩
  | some db_event =>
    let e' : Event :=
      { db_event with
        name := event_update.name.getD db_event.name,
        description := event_update.description.getD db_event.description,
        location := event_update.location.getD db_event.location,
        start_time := event_update.start_time.getD db_event.start_time,
        end_time := event_update.end_time.getD db_event.end_time,
        is_active := event_update.is_active.getD db_event.is_active,
        max_capacity := event_update.max_capacity.getD db_event.max_capacity,
        configuration := event_update.configuration.getD db_event.configuration }
    .ok (e', { db with events := updateFirst (fun e => e.id == event_id) (fun _ => e') db.events })

/-- Handler for `POST /events/register` (`register_for_event`). The duplicate check
queries on the pair only, with no `is_active` condition. -/
def register_for_event (db : Store) (current_user : User)
    (user_event : UserEventCreate) (now new_id : Int) : Api (UserEvent × Store) :=
  match db.users.find? (fun u => u.id == user_event.user_id) with
  | none => .error ⟨404, "User not found"⟩
  | some _ =>
    match db.events.find? (fun e => e.id == user_event.event_id) with
    | none => .error ⟨404, "Event not found"⟩
    | some _ =>
      if !current_user.is_admin && current_user.id != user_event.user_id then
        .error ⟨403, "Not authorized to register other users for events"⟩
      else
        match db.user_events.find? (fun r =>
            r.user_id == user_event.user_id && r.event_id == user_event.event_id) with
        | some _ => .error ⟨400, "User already registered for this event"⟩
        | none =>
          let row : UserEvent :=
            { id := new_id, user_id := user_event.user_id,
              event_id := user_event.event_id, registration_time := now,
              checkin_time := none, checkout_time := none,
              is_active := some user_event.is_active }
          .ok (row, { db with user_events := db.user_events ++ [row] })

/-- Handler for `GET /events/registrations` (`read_event_registrations`). -/
def read_event_registrations (db : Store) (current_user : User)
    (event_id user_id : Option Int) (is_active : Option Bool)
    (skip limit : Nat) : List UserEvent :=
  let q1 :=
    if !current_user.is_admin then
      db.user_events.filter (fun r => r.user_id == current_user.id)
    else if truthyInt user_id then
      db.user_events.filter (fun r => r.user_id == user_id.getD 0)
    else
      db.user_events
  let q2 := if truthyInt event_id then q1.filter (fun r => r.event_id == event_id.getD 0) else q1
  let q3 :=
    match is_active with
    | none => q2
    | some b => q2.filter (fun r => r.is_active == some b)
  offsetLimit skip limit q3

/-- Handler for `PUT /events/registrations/{registration_id}` (`update_event_registration`). -/
def update_event_registration (db : Store) (current_user : User)
    (registration_id : Int) (registration_update : UserEventUpdate) :
    Api (UserEvent × Store) :=
  match db.user_events.find? (fun r => r.id == registration_id) with
  | none => .error ⟨404, "Registration not found"⟩
  | some r =>
    if !current_user.is_admin && r.user_id != current_user.id then
      .error ⟨403, "Not authorized to update this registration"⟩
    else
      let r' : UserEvent :=
        { r with
          checkin_time := registration_update.checkin_time.getD r.checkin_time,
          checkout_time := registration_update.checkout_time.getD r.checkout_time,
          is_active := registration_update.is_active.getD r.is_active }
      let tbl := updateFirst (fun x => x.id == registration_id) (fun _ => r') db.user_events
      .ok (r', { db with user_events := tbl })

/-- Handler for `DELETE /events/registrations/{registration_id}` (`delete_event_registration`). -/
def delete_event_registration (db : Store) (current_user : User)
    (registration_id : Int) : Api Store :=
  match db.user_events.find? (fun r => r.id == registration_id) with
  | none => .error ⟨404, "Registration not found"⟩
  | some r =>
    if !current_user.is_admin && r.user_id != current_user.id then
      .error ⟨403, "Not authorized to delete this registration"⟩
    else
      .ok { db with user_events :=
        db.user_events.eraseP (fun x => x.id == registration_id) }

/-- Handler for `POST /events/checkin` (`checkin_to_event`): looks up the registration by
(user, event, `is_active == True`) and records `checkin_time`. -/
def checkin_to_event (db : Store) (current_user : User) (event_id : Int)
    (user_id : Option Int) (now : Timestamp) : Api (UserEvent × Store) :=
  let target := user_id.getD current_user.id
  if user_id.isSome && (!current_user.is_admin && target != current_user.id) then
    .error ⟨403, "Not authorized to check in other users"⟩
  else
    match db.user_events.find? (fun r =>
        r.user_id == target && r.event_id == event_id && r.is_active == some true) with
    | none => .error ⟨404, "Active registration not found"⟩
    | some r =>
      let r' : UserEvent := { r with checkin_time := some now }
      let tbl := updateFirst
        (fun x => x.user_id == target && x.event_id == event_id && x.is_active == some true)
        (fun _ => r') db.user_events
      .ok (r', { db with user_events := tbl })

/-- Handler for `POST /events/checkout` (`checkout_from_event`): same lookup as check-in,
records `checkout_time`, leaves `is_active` untouched. -/
def checkout_from_event (db : Store) (current_user : User) (event_id : Int)
    (user_id : Option Int) (now : Timestamp) : Api (UserEvent × Store) :=
  let target := user_id.getD current_user.id
  if user_id.isSome && (!current_user.is_admin && target != current_user.id) then
    .error ⟨403, "Not authorized to check out other users"⟩
  else
    match db.user_events.find? (fun r =>
        r.user_id == target && r.event_id == event_id && r.is_active == some true) with
    | none => .error ⟨404, "Active registration not found"⟩
    | some r =>
      let r' : UserEvent := { r with checkout_time := some now }
      let tbl := updateFirst
        (fun x => x.user_id == target && x.event_id == event_id && x.is_active == some true)
        (fun _ => r') db.user_events
      .ok (r', { db with user_events := tbl })

/-! ### Pydantic schemas for the biometrics family (`app/schemas/biometrics.py`) -/

/-- Schema `BiometricDataCreate`. -/
structure BiometricDataCreate where
  user_id : Int
  event_id : Int
  device_id : String
  heart_rate : Option ℚ := none
  gsr : Option ℚ := none
  temperature : Option ℚ := none
  energy_level : Option ℚ := none
  emotional_state : Option String := none
deriving Repr, DecidableEq

/-- Schema `BiometricDataUpdate`. -/
structure BiometricDataUpdate where
  heart_rate : Option (Option ℚ) := none
  gsr : Option (Option ℚ) := none
  temperature : Option (Option ℚ) := none
  energy_level : Option (Option ℚ) := none
  emotional_state : Option (Option String) := none
deriving Repr, DecidableEq

/-- Schema `BiometricDeviceCreate`. -/
structure BiometricDeviceCreate where
  device_id : String
  device_type : String
  is_active : Bool := true
deriving Repr, DecidableEq

/-- Schema `BiometricDeviceUpdate`. -/
structure BiometricDeviceUpdate where
  device_type : Option (Option String) := none
  is_active : Option (Option Bool) := none
deriving Repr, DecidableEq

/-! ### Handlers of `app/api/v1/biometrics.py` -/

/-- Handler for `POST /biometrics/data` (`create_biometric_data`). -/
def create_biometric_data (db : Store) (current_user : User)
    (biometric_data : BiometricDataCreate) (now new_id : Int) :
    Api (BiometricData × Store) :=
  match db.users.find? (fun u => u.id == biometric_data.user_id) with
  | none => .error ⟨404, "User not found"⟩
  | some _ =>
    match db.events.find? (fun e => e.id == biometric_data.event_id) with
    | none => .error ⟨404, "Event not found"⟩
    | some _ =>
      let row : BiometricData :=
        { id := new_id, user_id := biometric_data.user_id,
          event_id := biometric_data.event_id, device_id := biometric_data.device_id,
          timestamp := now, heart_rate := biometric_data.heart_rate,
          gsr := biometric_data.gsr, temperature := biometric_data.temperature,
          energy_level := biometric_data.energy_level,
          emotional_state := biometric_data.emotional_state }
      .ok (row, { db with biometric_data := db.biometric_data ++ [row] })

/-- Handler for `GET /biometrics/data` (`read_biometric_data`). -/
def read_biometric_data (db : Store) (current_user : User)
    (user_id event_id : Option Int) (device_id : Option String)
    (skip limit : Nat) : List BiometricData :=
  let q1 :=
    if !current_user.is_admin then
      db.biometric_data.filter (fun r => r.user_id == current_user.id)
    else if truthyInt user_id then
      db.biometric_data.filter (fun r => r.user_id == user_id.getD 0)
    else
      db.biometric_data
  let q2 := if truthyInt event_id then q1.filter (fun r => r.event_id == event_id.getD 0) else q1
  let q3 := if truthyStr device_id then q2.filter (fun r => r.device_id == device_id.getD "") else q2
  offsetLimit skip limit q3

/-- Handler for `GET /biometrics/data/{biometric_data_id}` (`read_biometric_data_by_id`). -/
def read_biometric_data_by_id (db : Store) (current_user : User)
    (biometric_data_id : Int) : Api BiometricData :=
  match db.biometric_data.find? (fun r => r.id == biometric_data_id) with
  | none => .error ⟨404, "Biometric data not found"⟩
  | some r =>
    if !current_user.is_admin && r.user_id != current_user.id then
      .error ⟨403, "Not authorized to access this biometric data"⟩
    else
      .ok r

/-- Handler for `PUT /biometrics/data/{biometric_data_id}` (`update_biometric_data`). -/
def update_biometric_data (db : Store) (current_user : User)
    (biometric_data_id : Int) (biometric_data_update : BiometricDataUpdate) :
    Api (BiometricData × Store) :=
  match db.biometric_data.find? (fun r => r.id == biometric_data_id) with
  | none => .error ⟨404, "Biometric data not found"⟩
  | some r =>
    if !current_user.is_admin && r.user_id != current_user.id then
      .error ⟨403, "Not authorized to update this biometric data"⟩
    else
      let r' : BiometricData :=
        { r with
          heart_rate := biometric_data_update.heart_rate.getD r.heart_rate,
          gsr := biometric_data_update.gsr.getD r.gsr,
          temperature := biometric_data_update.temperature.getD r.temperature,
          energy_level := biometric_data_update.energy_level.getD r.energy_level,
          emotional_state := biometric_data_update.emotional_state.getD r.emotional_state }
      let tbl := updateFirst (fun x => x.id == biometric_data_id) (fun _ => r') db.biometric_data
      .ok (r', { db with biometric_data := tbl })

/-- Handler for `DELETE /biometrics/data/{biometric_data_id}` (`delete_biometric_data`). -/
def delete_biometric_data (db : Store) (current_user : User)
    (biometric_data_id : Int) : Api Store :=
  match db.biometric_data.find? (fun r => r.id == biometric_data_id) with
  | none => .error ⟨404, "Biometric data not found"⟩
  | some r =>
    if !current_user.is_admin && r.user_id != current_user.id then
      .error ⟨403, "Not authorized to delete this biometric data"⟩
    else
      .ok { db with biometric_data :=
        db.biometric_data.eraseP (fun x => x.id == biometric_data_id) }

/-- Handler for `POST /biometrics/devices` (`create_biometric_device`, admin only). -/
def create_biometric_device (db : Store) (admin_user : User)
    (device : BiometricDeviceCreate) (now new_id : Int) :
    Api (BiometricDevice × Store) := do
  let _ ← require_admin admin_user
  match db.biometric_devices.find? (fun d => d.device_id == device.device_id) with
  | some _ => .error ⟨400, "Device ID already registered"⟩
  | none =>
    let row : BiometricDevice :=
      { id := new_id, device_id := device.device_id,
        device_type := some device.device_type, is_active := some device.is_active,
        last_connection := none, created_at := now }
    .ok (row, { db with biometric_devices := db.biometric_devices ++ [row] })

/-- Handler for `GET /biometrics/devices` (`read_biometric_devices`): guarded by
`get_current_active_user`, not the admin dependency. -/
def read_biometric_devices (db : Store) (current_user : User)
    (is_active : Option Bool) (skip limit : Nat) : List BiometricDevice :=
  let q :=
    match is_active with
    | none => db.biometric_devices
    | some b => db.biometric_devices.filter (fun d => d.is_active == some b)
  offsetLimit skip limit q

/-- Handler for `GET /biometrics/devices/{device_id}` (`read_biometric_device`): guarded by
`get_current_active_user`, not the admin dependency. -/
def read_biometric_device (db : Store) (current_user : User)
    (device_id : String) : Api BiometricDevice :=
  match db.biometric_devices.find? (fun d => d.device_id == device_id) with
  | none => .error ⟨404, "Biometric device not found"⟩
  | some d => .ok d

/-- Handler for `PUT /biometrics/devices/{device_id}` (`update_biometric_device`, admin
only): after the partial merge it unconditionally writes
`last_connection = datetime.utcnow()`. -/
def update_biometric_device (db : Store) (admin_user : User)
    (device_id : String) (device_update : BiometricDeviceUpdate)
    (now : Timestamp) : Api (BiometricDevice × Store) := do
  let _ ← require_admin admin_user
  match db.biometric_devices.find? (fun d => d.device_id == device_id) with
  | none => .error ⟨404, "Biometric device not found"⟩
  | some d =>
    let d' : BiometricDevice :=
      { d with
        device_type := device_update.device_type.getD d.device_type,
        is_active := device_update.is_active.getD d.is_active,
        last_connection := some now }
    let tbl := updateFirst (fun x => x.device_id == device_id) (fun _ => d') db.biometric_devices
    .ok (d', { db with biometric_devices := tbl })

/-- Handler for `DELETE /biometrics/devices/{device_id}` (`delete_biometric_device`,
admin only). -/
def delete_biometric_device (db : Store) (admin_user : User)
    (device_id : String) : Api Store := do
  let _ ← require_admin admin_user
  match db.biometric_devices.find? (fun d => d.device_id == device_id) with
  | none => .error ⟨404, "Biometric device not found"⟩
  | some _ =>
    .ok { db with biometric_devices :=
      db.biometric_devices.eraseP (fun x => x.device_id == device_id) }

/-! ### Pydantic schemas for the sound family (`app/schemas/sound.py`) -/

/-- Schema `SongSelectionCreate`. -/
structure SongSelectionCreate where
  user_id : Int
  event_id : Int
  song_title : String
  artist : String
  duration : ℚ
  audio_features : Option JsonBlob := none
  is_approved : Bool := false
deriving Repr, DecidableEq

/-- Schema `SongSelectionUpdate`: both fields `Optional` with default `None`; the
outer `Option` is payload presence (`exclude_unset`). -/
structure SongSelectionUpdate where
  audio_features : Option (Option JsonBlob) := none
  is_approved : Option (Option Bool) := none
deriving Repr, DecidableEq

/-- The attribute value pydantic exposes for an `Optional[...] = None` field:
`None` both when the field was never set and when it was explicitly set to
null. `song_update.is_approved is not None` tests exactly this value. -/
def attrValue {α : Type} (field : Option (Option α)) : Option α :=
  field.getD none

/-! ### Handlers of `app/api/v1/sound.py` (song selections) -/

/-- Handler for `POST /sound/songs` (`create_song_selection`). -/
def create_song_selection (db : Store) (current_user : User)
    (song : SongSelectionCreate) (now new_id : Int) :
    Api (SongSelection × Store) :=
  match db.users.find? (fun u => u.id == song.user_id) with
  | none => .error ⟨404, "User not found"⟩
  | some _ =>
    match db.events.find? (fun e => e.id == song.event_id) with
    | none => .error ⟨404, "Event not found"⟩
    | some _ =>
      let row : SongSelection :=
        { id := new_id, user_id := song.user_id, event_id := song.event_id,
          song_title := song.song_title, artist := song.artist,
          duration := song.duration, audio_features := song.audio_features,
          is_approved := some song.is_approved, created_at := now }
      .ok (row, { db with song_selections := db.song_selections ++ [row] })

/-- Handler for `GET /sound/songs` (`read_song_selections`). -/
def read_song_selections (db : Store) (current_user : User)
    (user_id event_id : Option Int) (is_approved : Option Bool)
    (skip limit : Nat) : List SongSelection :=
  let q1 :=
    if !current_user.is_admin then
      db.song_selections.filter (fun s => s.user_id == current_user.id)
    else if truthyInt user_id then
      db.song_selections.filter (fun s => s.user_id == user_id.getD 0)
    else
      db.song_selections
  let q2 := if truthyInt event_id then q1.filter (fun s => s.event_id == event_id.getD 0) else q1
  let q3 :=
    match is_approved with
    | none => q2
    | some b => q2.filter (fun s => s.is_approved == some b)
  offsetLimit skip limit q3

/-- Handler for `GET /sound/songs/{song_id}` (`read_song_selection`). -/
def read_song_selection (db : Store) (current_user : User) (song_id : Int) :
    Api SongSelection :=
  match db.song_selections.find? (fun s => s.id == song_id) with
  | none => .error ⟨404, "Song selection not found"⟩
  | some s =>
    if !current_user.is_admin && s.user_id != current_user.id then
      .error ⟨403, "Not authorized to access this song selection"⟩
    else
      .ok s

/-- Handler for `PUT /sound/songs/{song_id}` (`update_song_selection`): the approval guard
tests the attribute value (`song_update.is_approved is not None`), then the
partial merge applies the fields present in the payload. -/
def update_song_selection (db : Store) (current_user : User) (song_id : Int)
    (song_update : SongSelectionUpdate) : Api (SongSelection × Store) :=
  match db.song_selections.find? (fun s => s.id == song_id) with
  | none => .error ⟨404, "Song selection not found"⟩
  | some s =>
    if !current_user.is_admin && s.user_id != current_user.id then
      .error ⟨403, "Not authorized to update this song selection"⟩
    else if !current_user.is_admin && (attrValue song_update.is_approved).isSome then
      .error ⟨403, "Not authorized to approve songs"⟩
    else
      let s' : SongSelection :=
        { s with
          audio_features := song_update.audio_features.getD s.audio_features,
          is_approved := song_update.is_approved.getD s.is_approved }
      let tbl := updateFirst (fun x => x.id == song_id) (fun _ => s') db.song_selections
      .ok (s', { db with song_selections := tbl })

/-- Handler for `DELETE /sound/songs/{song_id}` (`delete_song_selection`). -/
def delete_song_selection (db : Store) (current_user : User) (song_id : Int) :
    Api Store :=
  match db.song_selections.find? (fun s => s.id == song_id) with
  | none => .error ⟨404, "Song selection not found"⟩
  | some s =>
    if !current_user.is_admin && s.user_id != current_user.id then
      .error ⟨403, "Not authorized to delete this song selection"⟩
    else
      .ok { db with song_selections :=
        db.song_selections.eraseP (fun x => x.id == song_id) }

/-- Schema `SoundPresetCreate` (`app/schemas/sound.py`). -/
structure SoundPresetCreate where
  name : String
  description : Option String := none
  parameters : JsonBlob
deriving Repr, DecidableEq

/-- Schema `SoundPresetUpdate`. -/
structure SoundPresetUpdate where
  name : Option (Option String) := none
  description : Option (Option String) := none
  parameters : Option (Option JsonBlob) := none
deriving Repr, DecidableEq

/-- Handler for `POST /sound/presets` (`create_sound_preset`, admin only). -/
def create_sound_preset (db : Store) (admin_user : User)
    (preset : SoundPresetCreate) (now new_id : Int) :
    Api (SoundPreset × Store) := do
  let _ ← require_admin admin_user
  let row : SoundPreset :=
    { id := new_id, name := some preset.name, description := preset.description,
      parameters := some preset.parameters, created_at := now }
  .ok (row, { db with sound_presets := db.sound_presets ++ [row] })

/-- Handler for `GET /sound/presets` (`read_sound_presets`): guarded by
`get_current_active_user`, not the admin dependency. -/
def read_sound_presets (db : Store) (current_user : User)
    (skip limit : Nat) : List SoundPreset :=
  offsetLimit skip limit db.sound_presets

/-- Handler for `GET /sound/presets/{preset_id}` (`read_sound_preset`): guarded by
`get_current_active_user`, not the admin dependency. -/
def read_sound_preset (db : Store) (current_user : User) (preset_id : Int) :
    Api SoundPreset :=
  match db.sound_presets.find? (fun p => p.id == preset_id) with
  | none => .error ⟨404, "Sound preset not found"⟩
  | some p => .ok p

/-- Handler for `PUT /sound/presets/{preset_id}` (`update_sound_preset`, admin only). -/
def update_sound_preset (db : Store) (admin_user : User) (preset_id : Int)
    (preset_update : SoundPresetUpdate) : Api (SoundPreset × Store) := do
  let _ ← require_admin admin_user
  match db.sound_presets.find? (fun p => p.id == preset_id) with
  | none => .error ⟨404, "Sound preset not found"⟩
  | some p =>
    let p' : SoundPreset :=
      { p with
        name := preset_update.name.getD p.name,
        description := preset_update.description.getD p.description,
        parameters := preset_update.parameters.getD p.parameters }
    let tbl := updateFirst (fun x => x.id == preset_id) (fun _ => p') db.sound_presets
    .ok (p', { db with sound_presets := tbl })

/-- Handler for `DELETE /sound/presets/{preset_id}` (`delete_sound_preset`, admin only). -/
def delete_sound_preset (db : Store) (admin_user : User) (preset_id : Int) :
    Api Store := do
  let _ ← require_admin admin_user
  match db.sound_presets.find? (fun p => p.id == preset_id) with
  | none => .error ⟨404, "Sound preset not found"⟩
  | some _ =>
    .ok { db with sound_presets :=
      db.sound_presets.eraseP (fun x => x.id == preset_id) }

/-! ### Handlers of `app/api/v1/movement.py` used by the claims -/

/-- Schema `MovementPatternCreate` (`app/schemas/movement.py`). -/
structure MovementPatternCreate where
  name : String
  description : Option String := none
  pattern_data : JsonBlob
deriving Repr, DecidableEq

/-- Handler for `POST /movement/patterns` (`create_movement_pattern`, admin only). -/
def create_movement_pattern (db : Store) (admin_user : User)
    (pattern : MovementPatternCreate) (new_id : Int) :
    Api (MovementPattern × Store) := do
  let _ ← require_admin admin_user
  let row : MovementPattern :=
    { id := new_id, name := some pattern.name, description := pattern.description,
      pattern_data := some pattern.pattern_data }
  .ok (row, { db with movement_patterns := db.movement_patterns ++ [row] })

/-- Schema `MovementPatternUpdate` (`app/schemas/movement.py`). -/
structure MovementPatternUpdate where
  name : Option (Option String) := none
  description : Option (Option String) := none
  pattern_data : Option (Option JsonBlob) := none
deriving Repr, DecidableEq

/-- Handler for `PUT /movement/patterns/{pattern_id}`
(`update_movement_pattern`, admin only). -/
def update_movement_pattern (db : Store) (admin_user : User) (pattern_id : Int)
    (pattern_update : MovementPatternUpdate) : Api (MovementPattern × Store) := do
  let _ ← require_admin admin_user
  match db.movement_patterns.find? (fun p => p.id == pattern_id) with
  | none => .error ⟨404, "Movement pattern not found"⟩
  | some p =>
    let p' : MovementPattern :=
      { p with
        name := pattern_update.name.getD p.name,
        description := pattern_update.description.getD p.description,
        pattern_data := pattern_update.pattern_data.getD p.pattern_data }
    let tbl := updateFirst (fun x => x.id == pattern_id) (fun _ => p') db.movement_patterns
    .ok (p', { db with movement_patterns := tbl })

/-- Handler for `GET /movement/patterns` (`read_movement_patterns`): guarded by
`get_current_active_user`, not the admin dependency. -/
def read_movement_patterns (db : Store) (current_user : User)
    (skip limit : Nat) : List MovementPattern :=
  offsetLimit skip limit db.movement_patterns

/-- Handler for `GET /movement/patterns/{pattern_id}` (`read_movement_pattern`): guarded
by `get_current_active_user`, not the admin dependency. -/
def read_movement_pattern (db : Store) (current_user : User)
    (pattern_id : Int) : Api MovementPattern :=
  match db.movement_patterns.find? (fun p => p.id == pattern_id) with
  | none => .error ⟨404, "Movement pattern not found"⟩
  | some p => .ok p

/-- Handler for `DELETE /movement/patterns/{pattern_id}` (`delete_movement_pattern`,
admin only). -/
def delete_movement_pattern (db : Store) (admin_user : User)
    (pattern_id : Int) : Api Store := do
  let _ ← require_admin admin_user
  match db.movement_patterns.find? (fun p => p.id == pattern_id) with
  | none => .error ⟨404, "Movement pattern not found"⟩
  | some _ =>
    .ok { db with movement_patterns :=
      db.movement_patterns.eraseP (fun x => x.id == pattern_id) }

/-- Handler for `GET /movement/detected-patterns` (`read_detected_patterns`). -/
def read_detected_patterns (db : Store) (current_user : User)
    (event_id pattern_id : Option Int) (skip limit : Nat) :
    List DetectedPattern :=
  let q1 :=
    if truthyInt event_id then
      db.detected_patterns.filter (fun d => d.event_id == event_id.getD 0)
    else
      db.detected_patterns
  let q2 :=
    if truthyInt pattern_id then
      q1.filter (fun d => d.pattern_id == pattern_id.getD 0)
    else
      q1
  offsetLimit skip limit q2

/-! ### The biometric simulation's emotional-state bucketing
(`app/api/v1/biometrics.py`, `simulate_biometric_data`). The random draws are
passed in as arguments; the bucketing itself is deterministic. -/

/-- The fixed ordered label list of `simulate_biometric_data`. -/
def emotional_states : List String :=
  ["calm", "excited", "joyful", "focused", "energetic"]

/-- Python `int(...)` on a rational: truncation toward zero. -/
def pyInt (q : ℚ) : Int :=
  if 0 ≤ q then ⌊q⌋ else ⌈q⌉

/-- Python list indexing `xs[i]`: negative indices count from the end,
anything outside `[-len, len)` raises `IndexError` (modelled as `none`). -/
def pyListGet {α : Type} (xs : List α) (i : Int) : Option α :=
  if 0 ≤ i then xs.get? i.toNat
  else if 0 ≤ i + xs.length then xs.get? (i + xs.length).toNat
  else none

/-- The `emotional_state` computation of `simulate_biometric_data`:
`emotional_states[int(energy_level * len(emotional_states))]`, with no
clamping of the index. -/
def simulate_emotional_state (energy_level : ℚ) : Option String :=
  pyListGet emotional_states (pyInt (energy_level * emotional_states.length))

/-! ### Concrete sample data for witnesses and counterexamples -/

/-- A plain active non-admin user. -/
def alice : User :=
  { id := 1, email := "alice@example.com", username := "alice",
    is_active := true, is_admin := false }

/-- A second active non-admin user. -/
def bob : User :=
  { id := 2, email := "bob@example.com", username := "bob",
    is_active := true, is_admin := false }

/-- An active admin. -/
def adminUser : User :=
  { id := 3, email := "admin@example.com", username := "admin",
    is_active := true, is_admin := true }

/-- A sample event, id 1. -/
def eventOne : Event :=
  { id := 1, name := some "Launch", description := none, location := some "Hall",
    start_time := some 0, end_time := some 100, is_active := some true,
    max_capacity := none, configuration := none }

/-- Base store: three users, one event, all other tables empty. -/
def baseStore : Store :=
  { users := [alice, bob, adminUser], events := [eventOne], user_events := [],
    biometric_data := [], biometric_devices := [], song_selections := [],
    sound_presets := [], movement_patterns := [], detected_patterns := [] }

/-! ## C1 — registration uniqueness -/

/-- The registration produced by the C1 counterexample's register step. -/
def c1Row : UserEvent :=
  { id := 1, user_id := 1, event_id := 1, registration_time := 0,
    checkin_time := none, checkout_time := none, is_active := some false }

/-- The store after registering alice for event 1 and then deactivating the
registration via `update_event_registration`. -/
def c1Store : Store := { baseStore with user_events := [c1Row] }

/-- C1 counterexample: the duplicate check of `register_for_event` queries the
(user_id, event_id) pair with no `is_active` condition, and raises HTTP 400,
not 409 Conflict. Starting from `baseStore`, alice registers for event 1 and
the registration is then deactivated (`is_active := false`), giving `c1Store`,
which contains no active registration for the pair — yet the second register
attempt still fails, with status 400, where the claim says it must succeed
and create a row. -/
theorem C1_inactive_pair_blocks_reregistration :
    ((register_for_event baseStore alice ⟨1, 1, true⟩ 0 1).bind fun res =>
        update_event_registration res.2 alice 1 { is_active := some (some false) }) =
      .ok (c1Row, c1Store)
    ∧ (c1Store.user_events.filter fun r =>
        r.user_id == 1 && r.event_id == 1 && r.is_active == some true) = []
    ∧ register_for_event c1Store alice ⟨1, 1, true⟩ 5 2 =
      .error ⟨400, "User already registered for this event"⟩ :=
  ⟨rfl, rfl, rfl⟩

/-- C1 (amended): provided the referenced user and event exist and the caller
is allowed to register the target user, `register_for_event` fails with HTTP
400 ("User already registered for this event") whenever any registration row
— active or not — exists for the (user_id, event_id) pair, and no row is
created; when no registration row at all exists for the pair, it succeeds and
appends exactly one new registration row. -/
theorem C1_register_pair_rule (db : Store) (cu : User) (p : UserEventCreate)
    (now new_id : Int)
    (hu : (db.users.find? fun u => u.id == p.user_id).isSome)
    (he : (db.events.find? fun e => e.id == p.event_id).isSome)
    (hauth : cu.is_admin = true ∨ cu.id = p.user_id) :
    ((∃ r ∈ db.user_events, r.user_id = p.user_id ∧ r.event_id = p.event_id) →
      register_for_event db cu p now new_id =
        .error ⟨400, "User already registered for this event"⟩)
    ∧ ((∀ r ∈ db.user_events, ¬(r.user_id = p.user_id ∧ r.event_id = p.event_id)) →
      register_for_event db cu p now new_id =
        .ok ({ id := new_id, user_id := p.user_id, event_id := p.event_id,
               registration_time := now, checkin_time := none,
               checkout_time := none, is_active := some p.is_active },
             { db with user_events := db.user_events ++
                 [{ id := new_id, user_id := p.user_id, event_id := p.event_id,
                    registration_time := now, checkin_time := none,
                    checkout_time := none, is_active := some p.is_active }] })) := by
  obtain ⟨u0, hu0⟩ := Option.isSome_iff_exists.mp hu
  obtain ⟨e0, he0⟩ := Option.isSome_iff_exists.mp he
  have hauth' : (!cu.is_admin && cu.id != p.user_id) = false := by
    rcases hauth with h | h <;> simp [h]
  constructor
  · rintro ⟨r, hr, h1, h2⟩
    have hfind : (db.user_events.find? fun r =>
        r.user_id == p.user_id && r.event_id == p.event_id).isSome := by
      rw [List.find?_isSome]
      exact ⟨r, hr, by simp [h1, h2]⟩
    obtain ⟨r0, hr0⟩ := Option.isSome_iff_exists.mp hfind
    simp [register_for_event, hu0, he0, hauth', hr0]
  · intro h
    have hfind : (db.user_events.find? fun r =>
        r.user_id == p.user_id && r.event_id == p.event_id) = none := by
      rw [List.find?_eq_none]
      intro x hx
      simp only [Bool.and_eq_true, beq_iff_eq, not_and]
      intro h1 h2
      exact h x hx ⟨h1, h2⟩
    simp [register_for_event, hu0, he0, hauth', hfind]

/-- Witness for C1: on the empty registration table, alice registering herself
for event 1 succeeds and creates the row. -/
theorem C1_register_pair_rule_witness :
    register_for_event baseStore alice ⟨1, 1, true⟩ 0 1 =
      .ok ({ id := 1, user_id := 1, event_id := 1, registration_time := 0,
             checkin_time := none, checkout_time := none, is_active := some true },
           { baseStore with user_events := baseStore.user_events ++
               [{ id := 1, user_id := 1, event_id := 1, registration_time := 0,
                  checkin_time := none, checkout_time := none,
                  is_active := some true }] }) :=
  (C1_register_pair_rule baseStore alice ⟨1, 1, true⟩ 0 1 (by decide) (by decide)
    (Or.inr rfl)).2 (by simp [baseStore])

/-! ## Helper lemmas for list-endpoint membership -/

theorem mem_of_offsetLimit {α : Type} {skip limit : Nat} {xs : List α} {a : α}
    (h : a ∈ offsetLimit skip limit xs) : a ∈ xs :=
  List.mem_of_mem_drop (List.mem_of_mem_take h)

theorem mem_of_ite_filter {α : Type} {c : Prop} [Decidable c] {p : α → Bool}
    {l : List α} {a : α} (h : a ∈ if c then l.filter p else l) : a ∈ l := by
  by_cases hc : c
  · rw [if_pos hc] at h
    exact (List.mem_filter.mp h).1
  · rwa [if_neg hc] at h

/-! ## C2 — owner scoping of user-scoped list endpoints -/

/-- A biometric row owned by alice. -/
def c2Data : BiometricData :=
  { id := 1, user_id := 1, event_id := 1, device_id := "dev1", timestamp := 0,
    heart_rate := none, gsr := none, temperature := none, energy_level := none,
    emotional_state := none }

/-- A biometric row owned by bob. -/
def c2DataBob : BiometricData :=
  { id := 2, user_id := 2, event_id := 1, device_id := "dev1", timestamp := 1,
    heart_rate := none, gsr := none, temperature := none, energy_level := none,
    emotional_state := none }

/-- Store with one biometric row for alice and one for bob. -/
def c2Store : Store := { baseStore with biometric_data := [c2Data, c2DataBob] }

/-- C2 counterexample: for an admin caller the supplied `user_id` filter is
tested for truthiness (`elif user_id:`), so the explicitly supplied value `0`
is dropped and rows of every owner come back — the filter is not honored. -/
theorem C2_admin_zero_filter_counterexample :
    adminUser.is_admin = true
    ∧ read_biometric_data c2Store adminUser (some 0) none none 0 100 =
        [c2Data, c2DataBob]
    ∧ c2Data.user_id = 1 :=
  ⟨rfl, rfl, rfl⟩

/-- C2 (amended): a non-admin caller's list query over biometric data, song
selections and registrations only ever returns rows owned by the caller,
whatever `user_id` filter is supplied; for an admin caller the `user_id`
filter is honored whenever its value is nonzero (a zero value is treated as
if the filter were omitted). -/
theorem C2_list_owner_scoping (db : Store) (cu : User)
    (user_id event_id : Option Int) (device_id : Option String)
    (is_approved is_active : Option Bool) (skip limit : Nat) :
    (cu.is_admin = false →
      (∀ r ∈ read_biometric_data db cu user_id event_id device_id skip limit,
        r.user_id = cu.id)
      ∧ (∀ s ∈ read_song_selections db cu user_id event_id is_approved skip limit,
        s.user_id = cu.id)
      ∧ (∀ g ∈ read_event_registrations db cu event_id user_id is_active skip limit,
        g.user_id = cu.id))
    ∧ (∀ u : Int, cu.is_admin = true → user_id = some u → u ≠ 0 →
      (∀ r ∈ read_biometric_data db cu user_id event_id device_id skip limit,
        r.user_id = u)
      ∧ (∀ s ∈ read_song_selections db cu user_id event_id is_approved skip limit,
        s.user_id = u)
      ∧ (∀ g ∈ read_event_registrations db cu event_id user_id is_active skip limit,
        g.user_id = u)) := by
  constructor
  · intro ha
    refine ⟨?_, ?_, ?_⟩
    · intro r hr
      simp only [read_biometric_data, ha, Bool.not_false, if_true] at hr
      have h1 := mem_of_ite_filter (mem_of_ite_filter (mem_of_offsetLimit hr))
      simpa using (List.mem_filter.mp h1).2
    · intro s hs
      cases is_approved with
      | none =>
        simp only [read_song_selections, ha, Bool.not_false, if_true] at hs
        have h1 := mem_of_ite_filter (mem_of_offsetLimit hs)
        simpa using (List.mem_filter.mp h1).2
      | some b =>
        simp only [read_song_selections, ha, Bool.not_false, if_true] at hs
        have h0 := (List.mem_filter.mp (mem_of_offsetLimit hs)).1
        have h1 := mem_of_ite_filter h0
        simpa using (List.mem_filter.mp h1).2
    · intro g hg
      cases is_active with
      | none =>
        simp only [read_event_registrations, ha, Bool.not_false, if_true] at hg
        have h1 := mem_of_ite_filter (mem_of_offsetLimit hg)
        simpa using (List.mem_filter.mp h1).2
      | some b =>
        simp only [read_event_registrations, ha, Bool.not_false, if_true] at hg
        have h0 := (List.mem_filter.mp (mem_of_offsetLimit hg)).1
        have h1 := mem_of_ite_filter h0
        simpa using (List.mem_filter.mp h1).2
  · intro u ha hu hu0
    have htr : truthyInt user_id = true := by simp [hu, truthyInt, hu0]
    have hgd : user_id.getD 0 = u := by simp [hu]
    refine ⟨?_, ?_, ?_⟩
    · intro r hr
      simp only [read_biometric_data, ha, Bool.not_true, if_false, htr, if_true, hgd] at hr
      have h1 := mem_of_ite_filter (mem_of_ite_filter (mem_of_offsetLimit hr))
      simpa using (List.mem_filter.mp h1).2
    · intro s hs
      cases is_approved with
      | none =>
        simp only [read_song_selections, ha, Bool.not_true, if_false, htr, if_true, hgd] at hs
        have h1 := mem_of_ite_filter (mem_of_offsetLimit hs)
        simpa using (List.mem_filter.mp h1).2
      | some b =>
        simp only [read_song_selections, ha, Bool.not_true, if_false, htr, if_true, hgd] at hs
        have h0 := (List.mem_filter.mp (mem_of_offsetLimit hs)).1
        have h1 := mem_of_ite_filter h0
        simpa using (List.mem_filter.mp h1).2
    · intro g hg
      cases is_active with
      | none =>
        simp only [read_event_registrations, ha, Bool.not_true, if_false, htr, if_true, hgd] at hg
        have h1 := mem_of_ite_filter (mem_of_offsetLimit hg)
        simpa using (List.mem_filter.mp h1).2
      | some b =>
        simp only [read_event_registrations, ha, Bool.not_true, if_false, htr, if_true, hgd] at hg
        have h0 := (List.mem_filter.mp (mem_of_offsetLimit hg)).1
        have h1 := mem_of_ite_filter h0
        simpa using (List.mem_filter.mp h1).2

/-- Witness for C2: non-admin bob listing biometric data with an explicit
`user_id=1` filter still only gets rows he owns. -/
theorem C2_list_owner_scoping_witness :
    (read_biometric_data c2Store bob (some 1) none none 0 100).all
      (fun r => r.user_id == bob.id) = true := by
  rw [List.all_eq_true]
  intro r hr
  have h := ((C2_list_owner_scoping c2Store bob (some 1) none none none none
    0 100).1 rfl).1 r hr
  simp [h]

/-! ## C3 — NotFound before Forbidden on user-scoped by-id operations -/

/-- A song selection owned by alice. -/
def c3Song : SongSelection :=
  { id := 1, user_id := 1, event_id := 1, song_title := "Tune", artist := "Ann",
    duration := 3, audio_features := none, is_approved := some false,
    created_at := 0 }

/-- An active registration of alice for event 1. -/
def c3Reg : UserEvent :=
  { id := 1, user_id := 1, event_id := 1, registration_time := 0,
    checkin_time := none, checkout_time := none, is_active := some true }

/-- Store with one alice-owned row in each user-scoped table. -/
def c3Store : Store :=
  { baseStore with
    biometric_data := [c2Data]
    song_selections := [c3Song]
    user_events := [c3Reg] }

/-- C3: for get/update/delete by id on the user-scoped resources, a row id
with no matching row yields 404 NotFound for every caller, and a row that
exists but is owned by someone else yields 403 Forbidden for a non-admin
caller: the existence check runs before the authorization check. -/
theorem C3_notfound_before_forbidden (db : Store) (cu : User) (rid : Int)
    (pbio : BiometricDataUpdate) (psong : SongSelectionUpdate)
    (preg : UserEventUpdate) :
    (((∀ r ∈ db.biometric_data, r.id ≠ rid) →
        read_biometric_data_by_id db cu rid = .error ⟨404, "Biometric data not found"⟩
        ∧ update_biometric_data db cu rid pbio = .error ⟨404, "Biometric data not found"⟩
        ∧ delete_biometric_data db cu rid = .error ⟨404, "Biometric data not found"⟩)
      ∧ ((∀ s ∈ db.song_selections, s.id ≠ rid) →
        read_song_selection db cu rid = .error ⟨404, "Song selection not found"⟩
        ∧ update_song_selection db cu rid psong = .error ⟨404, "Song selection not found"⟩
        ∧ delete_song_selection db cu rid = .error ⟨404, "Song selection not found"⟩)
      ∧ ((∀ g ∈ db.user_events, g.id ≠ rid) →
        update_event_registration db cu rid preg = .error ⟨404, "Registration not found"⟩
        ∧ delete_event_registration db cu rid = .error ⟨404, "Registration not found"⟩))
    ∧ (cu.is_admin = false →
      (∀ r, (db.biometric_data.find? fun x => x.id == rid) = some r →
          r.user_id ≠ cu.id →
        read_biometric_data_by_id db cu rid =
          .error ⟨403, "Not authorized to access this biometric data"⟩
        ∧ update_biometric_data db cu rid pbio =
          .error ⟨403, "Not authorized to update this biometric data"⟩
        ∧ delete_biometric_data db cu rid =
          .error ⟨403, "Not authorized to delete this biometric data"⟩)
      ∧ (∀ s, (db.song_selections.find? fun x => x.id == rid) = some s →
          s.user_id ≠ cu.id →
        read_song_selection db cu rid =
          .error ⟨403, "Not authorized to access this song selection"⟩
        ∧ update_song_selection db cu rid psong =
          .error ⟨403, "Not authorized to update this song selection"⟩
        ∧ delete_song_selection db cu rid =
          .error ⟨403, "Not authorized to delete this song selection"⟩)
      ∧ (∀ g, (db.user_events.find? fun x => x.id == rid) = some g →
          g.user_id ≠ cu.id →
        update_event_registration db cu rid preg =
          .error ⟨403, "Not authorized to update this registration"⟩
        ∧ delete_event_registration db cu rid =
          .error ⟨403, "Not authorized to delete this registration"⟩)) := by
  constructor
  · refine ⟨?_, ?_, ?_⟩
    · intro habs
      have hfind : (db.biometric_data.find? fun x => x.id == rid) = none := by
        rw [List.find?_eq_none]
        intro x hx
        simpa using habs x hx
      refine ⟨?_, ?_, ?_⟩ <;>
        simp [read_biometric_data_by_id, update_biometric_data,
          delete_biometric_data, hfind]
    · intro habs
      have hfind : (db.song_selections.find? fun x => x.id == rid) = none := by
        rw [List.find?_eq_none]
        intro x hx
        simpa using habs x hx
      refine ⟨?_, ?_, ?_⟩ <;>
        simp [read_song_selection, update_song_selection,
          delete_song_selection, hfind]
    · intro habs
      have hfind : (db.user_events.find? fun x => x.id == rid) = none := by
        rw [List.find?_eq_none]
        intro x hx
        simpa using habs x hx
      refine ⟨?_, ?_⟩ <;>
        simp [update_event_registration, delete_event_registration, hfind]
  · intro ha
    refine ⟨?_, ?_, ?_⟩
    · intro r hfind hne
      refine ⟨?_, ?_, ?_⟩ <;>
        simp [read_biometric_data_by_id, update_biometric_data,
          delete_biometric_data, hfind, ha, hne]
    · intro s hfind hne
      refine ⟨?_, ?_, ?_⟩ <;>
        simp [read_song_selection, update_song_selection,
          delete_song_selection, hfind, ha, hne]
    · intro g hfind hne
      refine ⟨?_, ?_⟩ <;>
        simp [update_event_registration, delete_event_registration,
          hfind, ha, hne]

/-- Witness for C3: bob gets 403 for alice's existing biometric row, and 404
for a nonexistent id, under the same store and caller. -/
theorem C3_notfound_before_forbidden_witness :
    read_biometric_data_by_id c3Store bob 1 =
      .error ⟨403, "Not authorized to access this biometric data"⟩
    ∧ delete_song_selection c3Store bob 99 =
      .error ⟨404, "Song selection not found"⟩ := by
  constructor
  · exact (((C3_notfound_before_forbidden c3Store bob 1 {} {} {}).2 rfl).1
      c2Data (by decide) (by decide)).1
  · exact (((C3_notfound_before_forbidden c3Store bob 99 {} {} {}).1).2.1
      (by decide)).2.2

/-! ## C4 — admin gating of the admin-only resource families -/

/-- A registered biometric device. -/
def c4Device : BiometricDevice :=
  { id := 1, device_id := "dev1", device_type := some "wristband",
    is_active := some true, last_connection := none, created_at := 0 }

/-- A movement pattern template. -/
def patternOne : MovementPattern :=
  { id := 1, name := some "wave", description := none,
    pattern_data := some "template" }

/-- A sound preset. -/
def presetOne : SoundPreset :=
  { id := 1, name := some "warm", description := none,
    parameters := some "params", created_at := 0 }

/-- Store with one device, one movement pattern and one sound preset. -/
def c4Store : Store :=
  { baseStore with
    biometric_devices := [c4Device]
    movement_patterns := [patternOne]
    sound_presets := [presetOne] }

/-- C4 counterexample: `read_biometric_devices`, `read_biometric_device`,
`read_movement_patterns`, `read_movement_pattern`, `read_sound_presets` and
`read_sound_preset` depend on `get_current_active_user`, not the admin
dependency, so the non-admin alice's list and get requests on these
admin-only resources succeed instead of failing with Forbidden. -/
theorem C4_nonadmin_list_get_counterexample :
    alice.is_admin = false
    ∧ read_biometric_devices c4Store alice none 0 100 = [c4Device]
    ∧ read_biometric_device c4Store alice "dev1" = .ok c4Device
    ∧ read_movement_patterns c4Store alice 0 100 = [patternOne]
    ∧ read_movement_pattern c4Store alice 1 = .ok patternOne
    ∧ read_sound_presets c4Store alice 0 100 = [presetOne]
    ∧ read_sound_preset c4Store alice 1 = .ok presetOne :=
  ⟨rfl, rfl, rfl, rfl, rfl, rfl, rfl⟩

/-- C4 (amended): create, update and delete on the admin-only resource
families (biometric devices, movement patterns, sound presets) and event
creation/update fail closed with 403 Forbidden for every non-admin caller,
with no ownership fallback; list and get on devices, patterns and presets
require only an active authenticated user and never answer Forbidden. -/
theorem C4_admin_gating (db : Store) (cu : User) (hcu : cu.is_admin = false)
    (dev : BiometricDeviceCreate) (devUp : BiometricDeviceUpdate) (did : String)
    (ec : EventCreate) (eu : EventUpdate) (eid : Int)
    (mp : MovementPatternCreate) (mpUp : MovementPatternUpdate) (pid : Int)
    (sp : SoundPresetCreate) (spUp : SoundPresetUpdate) (spid : Int)
    (now new_id : Int) :
    create_biometric_device db cu dev now new_id = .error ⟨403, "Forbidden"⟩
    ∧ update_biometric_device db cu did devUp now = .error ⟨403, "Forbidden"⟩
    ∧ delete_biometric_device db cu did = .error ⟨403, "Forbidden"⟩
    ∧ create_event db cu ec new_id = .error ⟨403, "Forbidden"⟩
    ∧ update_event db cu eid eu = .error ⟨403, "Forbidden"⟩
    ∧ create_movement_pattern db cu mp new_id = .error ⟨403, "Forbidden"⟩
    ∧ update_movement_pattern db cu pid mpUp = .error ⟨403, "Forbidden"⟩
    ∧ delete_movement_pattern db cu pid = .error ⟨403, "Forbidden"⟩
    ∧ create_sound_preset db cu sp now new_id = .error ⟨403, "Forbidden"⟩
    ∧ update_sound_preset db cu spid spUp = .error ⟨403, "Forbidden"⟩
    ∧ delete_sound_preset db cu spid = .error ⟨403, "Forbidden"⟩
    ∧ read_biometric_device db cu did ≠ .error ⟨403, "Forbidden"⟩
    ∧ read_movement_pattern db cu pid ≠ .error ⟨403, "Forbidden"⟩
    ∧ read_sound_preset db cu spid ≠ .error ⟨403, "Forbidden"⟩ := by
  refine ⟨?_, ?_, ?_, ?_, ?_, ?_, ?_, ?_, ?_, ?_, ?_, ?_, ?_, ?_⟩
  · simp [create_biometric_device, require_admin, hcu, Bind.bind, Except.bind]
  · simp [update_biometric_device, require_admin, hcu, Bind.bind, Except.bind]
  · simp [delete_biometric_device, require_admin, hcu, Bind.bind, Except.bind]
  · simp [create_event, require_admin, hcu, Bind.bind, Except.bind]
  · simp [update_event, require_admin, hcu, Bind.bind, Except.bind]
  · simp [create_movement_pattern, require_admin, hcu, Bind.bind, Except.bind]
  · simp [update_movement_pattern, require_admin, hcu, Bind.bind, Except.bind]
  · simp [delete_movement_pattern, require_admin, hcu, Bind.bind, Except.bind]
  · simp [create_sound_preset, require_admin, hcu, Bind.bind, Except.bind]
  · simp [update_sound_preset, require_admin, hcu, Bind.bind, Except.bind]
  · simp [delete_sound_preset, require_admin, hcu, Bind.bind, Except.bind]
  · rw [read_biometric_device]
    cases db.biometric_devices.find? (fun d => d.device_id == did) <;> simp
  · rw [read_movement_pattern]
    cases db.movement_patterns.find? (fun p => p.id == pid) <;> simp
  · rw [read_sound_preset]
    cases db.sound_presets.find? (fun p => p.id == spid) <;> simp

/-- Witness for C4: the non-admin alice cannot delete the device, but can get
it. -/
theorem C4_admin_gating_witness :
    delete_biometric_device c4Store alice "dev1" = .error ⟨403, "Forbidden"⟩
    ∧ read_biometric_device c4Store alice "dev1" ≠ .error ⟨403, "Forbidden"⟩ :=
  ⟨(C4_admin_gating c4Store alice rfl ⟨"dev1", "wristband", true⟩ {} "dev1"
      ⟨"E", none, "L", 0, 1, false, none, none⟩ {} 1 ⟨"wave", none, "t"⟩ {} 1
      ⟨"warm", none, "p"⟩ {} 1 0 9).2.2.1,
   (C4_admin_gating c4Store alice rfl ⟨"dev1", "wristband", true⟩ {} "dev1"
      ⟨"E", none, "L", 0, 1, false, none, none⟩ {} 1 ⟨"wave", none, "t"⟩ {} 1
      ⟨"warm", none, "p"⟩ {} 1 0 9).2.2.2.2.2.2.2.2.2.2.2.1⟩

/-! ## C5 — the non-admin `is_approved` update restriction -/

/-- A song selection owned by alice, not yet approved. -/
def c5Song : SongSelection :=
  { id := 1, user_id := 1, event_id := 1, song_title := "Beat", artist := "Ben",
    duration := 4, audio_features := none, is_approved := some false,
    created_at := 0 }

/-- Store with alice's song selection. -/
def c5Store : Store := { baseStore with song_selections := [c5Song] }

/-- C5 counterexample: the guard in `update_song_selection` is
`song_update.is_approved is not None` — a test of the attribute's value, not
of the field's presence in the payload. Non-admin owner alice sends a payload
in which `is_approved` is explicitly present with value null: the update is
not rejected with Forbidden; it succeeds and the merge writes the null into
the stored row. -/
theorem C5_present_null_not_rejected :
    update_song_selection c5Store alice 1
        { audio_features := none, is_approved := some none } =
      .ok ({ c5Song with is_approved := none },
           { c5Store with song_selections := [{ c5Song with is_approved := none }] }) :=
  rfl

/-- C5 (amended): for a non-admin caller who owns the song-selection row, a
payload whose `is_approved` attribute carries a non-null boolean fails the
whole update with 403 Forbidden before any part of the merge is applied (the
store is untouched), even when the other payload fields are valid; a payload
whose `is_approved` attribute is null — absent, or explicitly present with
value null — is not rejected, and the merge applies the fields present in
the payload. The trigger is the attribute's value, not the field's
presence. -/
theorem C5_is_approved_guard (db : Store) (cu : User) (sid : Int)
    (p : SongSelectionUpdate) (s : SongSelection)
    (ha : cu.is_admin = false)
    (hfind : (db.song_selections.find? fun x => x.id == sid) = some s)
    (hown : s.user_id = cu.id) :
    (∀ b : Bool, p.is_approved = some (some b) →
      update_song_selection db cu sid p =
        .error ⟨403, "Not authorized to approve songs"⟩)
    ∧ (attrValue p.is_approved = none →
      (update_song_selection db cu sid p).map Prod.fst =
        .ok { s with
              audio_features := p.audio_features.getD s.audio_features,
              is_approved := p.is_approved.getD s.is_approved }) := by
  have hguard : (!cu.is_admin && s.user_id != cu.id) = false := by
    simp [ha, hown]
  constructor
  · intro b hb
    simp [update_song_selection, hfind, hguard, ha, hown, attrValue, hb]
  · intro hnull
    simp [update_song_selection, hfind, hguard, ha, hown, hnull, Except.map]

/-- Witness for C5: the non-admin owner alice explicitly setting
`is_approved` to `true` is rejected with Forbidden. -/
theorem C5_is_approved_guard_witness :
    update_song_selection c5Store alice 1 { is_approved := some (some true) } =
      .error ⟨403, "Not authorized to approve songs"⟩ :=
  (C5_is_approved_guard c5Store alice 1 { is_approved := some (some true) }
    c5Song rfl (by decide) rfl).1 true rfl

/-! ## C6 — the simulation's emotional-state bucketing -/

/-- C6 counterexample: the code computes
`emotional_states[int(energy_level * len(emotional_states))]` with no
clamping. At `energy_level = 1`, a value inside the claim's closed interval
[0,1], the index is 5 — out of range for the 5-label list — so the lookup
fails (an `IndexError` in Python) instead of yielding the last label. -/
theorem C6_no_clamp_counterexample :
    pyInt ((1 : ℚ) * emotional_states.length) = 5
    ∧ simulate_emotional_state 1 = none := by
  have hpy : pyInt ((1 : ℚ) * emotional_states.length) = 5 := by
    norm_num [pyInt, emotional_states]
  refine ⟨hpy, ?_⟩
  rw [simulate_emotional_state, hpy]
  rfl

/-- C6 (amended): the emotional-state index is `int(energy_level * 5)` with
no clamping; for every `energy_level` in the half-open interval [0,1) — the
range `np.random.uniform(0, 1)` draws from — the index stays within the
5-label list and the result is one of the 5 labels; `energy_level = 0.99`
maps to the last label, "energetic". At the right endpoint 1 the lookup is
out of range. -/
theorem C6_bucket_in_range (e : ℚ) (h0 : 0 ≤ e) (h1 : e < 1) :
    (∃ s, simulate_emotional_state e = some s ∧ s ∈ emotional_states)
    ∧ simulate_emotional_state (99 / 100) = some "energetic" := by
  have hlen : ((emotional_states.length : ℚ)) = 5 := by simp [emotional_states]
  constructor
  · have hq : (0 : ℚ) ≤ e * emotional_states.length := by
      rw [hlen]; positivity
    have hpy : pyInt (e * emotional_states.length) = ⌊e * (5 : ℚ)⌋ := by
      rw [pyInt, if_pos hq, hlen]
    have hnn : 0 ≤ ⌊e * (5 : ℚ)⌋ := Int.floor_nonneg.mpr (by positivity)
    have hlt : ⌊e * (5 : ℚ)⌋ < 5 := by
      rw [Int.floor_lt]
      push_cast
      nlinarith
    have hnat : (⌊e * (5 : ℚ)⌋).toNat < emotional_states.length := by
      simp only [emotional_states, List.length]
      omega
    refine ⟨emotional_states.get ⟨(⌊e * (5 : ℚ)⌋).toNat, hnat⟩, ?_, List.get_mem _ _ _⟩
    rw [simulate_emotional_state, hpy, pyListGet, if_pos hnn]
    exact List.get?_eq_get hnat
  · have hpy : pyInt ((99 / 100 : ℚ) * emotional_states.length) = 4 := by
      rw [pyInt, if_pos (by rw [hlen]; norm_num), hlen, Int.floor_eq_iff]
      norm_num
    rw [simulate_emotional_state, hpy]
    rfl

/-- Witness for C6: at `energy_level = 99/100` the bucketing yields one of
the five labels. -/
theorem C6_bucket_in_range_witness :
    ∃ s, simulate_emotional_state (99 / 100) = some s ∧ s ∈ emotional_states :=
  (C6_bucket_in_range (99 / 100) (by norm_num) (by norm_num)).1

/-! ## C7 — presence-based partial merge of update payloads -/

/-- C7: for `update_biometric_data` and `update_event`, a field absent from
the update payload (outer `none`, i.e. excluded by `exclude_unset`) keeps the
stored row's value, and a field explicitly present in the payload — whatever
its value, a null included — is written. The merge is decided by field
presence, not by the field's value. -/
theorem C7_partial_merge (db : Store) (cu : User) (bid eid : Int)
    (bu : BiometricDataUpdate) (ev : EventUpdate) :
    (∀ r, (db.biometric_data.find? fun x => x.id == bid) = some r →
      (cu.is_admin = true ∨ r.user_id = cu.id) →
      ((bu.heart_rate = none →
        (update_biometric_data db cu bid bu).map (fun x => x.1.heart_rate) = .ok r.heart_rate)
      ∧ (∀ v, bu.heart_rate = some v →
        (update_biometric_data db cu bid bu).map (fun x => x.1.heart_rate) = .ok v)
      ∧ (bu.gsr = none →
        (update_biometric_data db cu bid bu).map (fun x => x.1.gsr) = .ok r.gsr)
      ∧ (∀ v, bu.gsr = some v →
        (update_biometric_data db cu bid bu).map (fun x => x.1.gsr) = .ok v)
      ∧ (bu.temperature = none →
        (update_biometric_data db cu bid bu).map (fun x => x.1.temperature) = .ok r.temperature)
      ∧ (∀ v, bu.temperature = some v →
        (update_biometric_data db cu bid bu).map (fun x => x.1.temperature) = .ok v)
      ∧ (bu.energy_level = none →
        (update_biometric_data db cu bid bu).map (fun x => x.1.energy_level) = .ok r.energy_level)
      ∧ (∀ v, bu.energy_level = some v →
        (update_biometric_data db cu bid bu).map (fun x => x.1.energy_level) = .ok v)
      ∧ (bu.emotional_state = none →
        (update_biometric_data db cu bid bu).map (fun x => x.1.emotional_state) = .ok r.emotional_state)
      ∧ (∀ v, bu.emotional_state = some v →
        (update_biometric_data db cu bid bu).map (fun x => x.1.emotional_state) = .ok v)))
    ∧ (cu.is_admin = true →
      ∀ e0, (db.events.find? fun x => x.id == eid) = some e0 →
      ((ev.name = none →
        (update_event db cu eid ev).map (fun x => x.1.name) = .ok e0.name)
      ∧ (∀ v, ev.name = some v →
        (update_event db cu eid ev).map (fun x => x.1.name) = .ok v)
      ∧ (ev.description = none →
        (update_event db cu eid ev).map (fun x => x.1.description) = .ok e0.description)
      ∧ (∀ v, ev.description = some v →
        (update_event db cu eid ev).map (fun x => x.1.description) = .ok v)
      ∧ (ev.location = none →
        (update_event db cu eid ev).map (fun x => x.1.location) = .ok e0.location)
      ∧ (∀ v, ev.location = some v →
        (update_event db cu eid ev).map (fun x => x.1.location) = .ok v)
      ∧ (ev.start_time = none →
        (update_event db cu eid ev).map (fun x => x.1.start_time) = .ok e0.start_time)
      ∧ (∀ v, ev.start_time = some v →
        (update_event db cu eid ev).map (fun x => x.1.start_time) = .ok v)
      ∧ (ev.end_time = none →
        (update_event db cu eid ev).map (fun x => x.1.end_time) = .ok e0.end_time)
      ∧ (∀ v, ev.end_time = some v →
        (update_event db cu eid ev).map (fun x => x.1.end_time) = .ok v)
      ∧ (ev.is_active = none →
        (update_event db cu eid ev).map (fun x => x.1.is_active) = .ok e0.is_active)
      ∧ (∀ v, ev.is_active = some v →
        (update_event db cu eid ev).map (fun x => x.1.is_active) = .ok v)
      ∧ (ev.max_capacity = none →
        (update_event db cu eid ev).map (fun x => x.1.max_capacity) = .ok e0.max_capacity)
      ∧ (∀ v, ev.max_capacity = some v →
        (update_event db cu eid ev).map (fun x => x.1.max_capacity) = .ok v)
      ∧ (ev.configuration = none →
        (update_event db cu eid ev).map (fun x => x.1.configuration) = .ok e0.configuration)
      ∧ (∀ v, ev.configuration = some v →
        (update_event db cu eid ev).map (fun x => x.1.configuration) = .ok v))) := by
  constructor
  · intro r hfind hperm
    have hguard : (!cu.is_admin && r.user_id != cu.id) = false := by
      rcases hperm with h | h <;> simp [h]
    refine ⟨?_, ?_, ?_, ?_, ?_, ?_, ?_, ?_, ?_, ?_⟩ <;>
      first
      | (intro v h
         simp [update_biometric_data, hfind, hguard, h, Except.map])
      | (intro h
         simp [update_biometric_data, hfind, hguard, h, Except.map])
  · intro hadm e0 hfind
    refine ⟨?_, ?_, ?_, ?_, ?_, ?_, ?_, ?_, ?_, ?_, ?_, ?_, ?_, ?_, ?_, ?_⟩ <;>
      first
      | (intro v h
         simp [update_event, require_admin, hadm, hfind, h, Bind.bind,
           Except.bind, Except.map])
      | (intro h
         simp [update_event, require_admin, hadm, hfind, h, Bind.bind,
           Except.bind, Except.map])

/-- Witness for C7: alice updates her biometric row with a payload carrying
only `heart_rate`; the returned row has the new heart rate, and `gsr` —
absent from the payload — keeps its stored value. -/
theorem C7_partial_merge_witness :
    (update_biometric_data c3Store alice 1 { heart_rate := some (some 70) }).map
        (fun x => x.1.heart_rate) = .ok (some 70)
    ∧ (update_biometric_data c3Store alice 1 { heart_rate := some (some 70) }).map
        (fun x => x.1.gsr) = .ok c2Data.gsr := by
  constructor
  · exact ((C7_partial_merge c3Store alice 1 1 { heart_rate := some (some 70) } {}).1
      c2Data (by decide) (Or.inr rfl)).2.1 (some 70) rfl
  · exact ((C7_partial_merge c3Store alice 1 1 { heart_rate := some (some 70) } {}).1
      c2Data (by decide) (Or.inr rfl)).2.2.1 rfl

/-! ## C8 — check-in / check-out semantics -/

/-- An active registration of alice in the post-checkout state: both
timestamps recorded, `is_active` still true. -/
def c8Reg : UserEvent :=
  { id := 1, user_id := 1, event_id := 1, registration_time := 0,
    checkin_time := some 1, checkout_time := some 2, is_active := some true }

/-- Store holding the post-checkout registration. -/
def c8Store : Store := { baseStore with user_events := [c8Reg] }

/-- C8: check-in and check-out both look the registration up by
(user_id, event_id, `is_active == True`) and answer 404 NotFound when no such
row exists (in particular, check-in before registration); on success check-in
rewrites only `checkin_time` and check-out rewrites only `checkout_time` —
every other field, `is_active` and the opposite timestamp included, is kept —
so check-out leaves the registration active and a later check-in simply
overwrites `checkin_time` without error. -/
theorem C8_checkin_checkout (db : Store) (cu : User) (eid : Int)
    (uid : Option Int) (now : Timestamp)
    (hauth : uid = none ∨ cu.is_admin = true ∨ uid = some cu.id) :
    ((db.user_events.find? fun r => r.user_id == uid.getD cu.id &&
        r.event_id == eid && r.is_active == some true) = none →
      checkin_to_event db cu eid uid now =
        .error ⟨404, "Active registration not found"⟩
      ∧ checkout_from_event db cu eid uid now =
        .error ⟨404, "Active registration not found"⟩)
    ∧ (∀ r, (db.user_events.find? fun x => x.user_id == uid.getD cu.id &&
        x.event_id == eid && x.is_active == some true) = some r →
      (checkin_to_event db cu eid uid now).map Prod.fst =
        .ok { r with checkin_time := some now }
      ∧ (checkout_from_event db cu eid uid now).map Prod.fst =
        .ok { r with checkout_time := some now }) := by
  have hguard : (uid.isSome && (!cu.is_admin && uid.getD cu.id != cu.id)) = false := by
    rcases hauth with h | h | h <;> simp [h]
  constructor
  · intro hfind
    constructor <;>
      simp [checkin_to_event, checkout_from_event, hguard, hfind]
  · intro r hfind
    constructor <;>
      simp [checkin_to_event, checkout_from_event, hguard, hfind, Except.map]

/-- Witness for C8: re-check-in after check-out succeeds and overwrites only
`checkin_time`; check-in with no registration at all answers 404. -/
theorem C8_checkin_checkout_witness :
    (checkin_to_event c8Store alice 1 none 3).map Prod.fst =
      .ok { c8Reg with checkin_time := some 3 }
    ∧ checkin_to_event baseStore alice 1 none 3 =
      .error ⟨404, "Active registration not found"⟩ :=
  ⟨((C8_checkin_checkout c8Store alice 1 none 3 (Or.inl rfl)).2 c8Reg (by decide)).1,
   ((C8_checkin_checkout baseStore alice 1 none 3 (Or.inl rfl)).1 (by decide)).1⟩

/-! ## C9 — device updates always rewrite `last_connection` -/

/-- C9: `update_biometric_device` writes `last_connection := utcnow()` after
the merge, for every payload — the empty one included — so the stored
`last_connection` is never preserved across an update; payload-absent fields
of the update schema are otherwise kept. -/
theorem C9_last_connection_always_overwritten (db : Store) (cu : User)
    (did : String) (p : BiometricDeviceUpdate) (now : Timestamp)
    (hadm : cu.is_admin = true) :
    ∀ d, (db.biometric_devices.find? fun x => x.device_id == did) = some d →
      ((update_biometric_device db cu did p now).map
          (fun x => x.1.last_connection) = .ok (some now)
      ∧ (p.device_type = none →
        (update_biometric_device db cu did p now).map
          (fun x => x.1.device_type) = .ok d.device_type)
      ∧ (p.is_active = none →
        (update_biometric_device db cu did p now).map
          (fun x => x.1.is_active) = .ok d.is_active)) := by
  intro d hfind
  refine ⟨?_, ?_, ?_⟩
  · simp [update_biometric_device, require_admin, hadm, hfind, Bind.bind,
      Except.bind, Except.map]
  · intro h
    simp [update_biometric_device, require_admin, hadm, hfind, h, Bind.bind,
      Except.bind, Except.map]
  · intro h
    simp [update_biometric_device, require_admin, hadm, hfind, h, Bind.bind,
      Except.bind, Except.map]

/-- Witness for C9: an empty payload still stamps `last_connection`, which
was previously unset. -/
theorem C9_last_connection_witness :
    c4Device.last_connection = none
    ∧ (update_biometric_device c4Store adminUser "dev1" {} 5).map
        (fun x => x.1.last_connection) = .ok (some 5) :=
  ⟨rfl, (C9_last_connection_always_overwritten c4Store adminUser "dev1" {} 5
    rfl c4Device (by decide)).1⟩

/-! ## C10 — truthiness-tested filters treat 0 and "" as omitted -/

/-- C10: every filter parameter tested with Python truthiness (`if x:`) —
`user_id` (admin branch), `event_id`, `pattern_id` as integers, `device_id`
as a string — behaves, when supplied as `0` (or `""` for `device_id`),
exactly as if it were omitted: the query is not narrowed by that filter. -/
theorem C10_zero_filter_ignored (db : Store) (cu : User)
    (user_id event_id : Option Int) (device_id : Option String)
    (is_active is_approved : Option Bool) (skip limit : Nat) :
    read_biometric_data db cu (some 0) event_id device_id skip limit =
      read_biometric_data db cu none event_id device_id skip limit
    ∧ read_biometric_data db cu user_id (some 0) device_id skip limit =
      read_biometric_data db cu user_id none device_id skip limit
    ∧ read_biometric_data db cu user_id event_id (some "") skip limit =
      read_biometric_data db cu user_id event_id none skip limit
    ∧ read_event_registrations db cu (some 0) (some 0) is_active skip limit =
      read_event_registrations db cu none none is_active skip limit
    ∧ read_song_selections db cu (some 0) (some 0) is_approved skip limit =
      read_song_selections db cu none none is_approved skip limit
    ∧ read_detected_patterns db cu (some 0) (some 0) skip limit =
      read_detected_patterns db cu none none skip limit := by
  refine ⟨?_, ?_, ?_, ?_, ?_, ?_⟩ <;>
    simp [read_biometric_data, read_event_registrations, read_song_selections,
      read_detected_patterns, truthyInt, truthyStr]

end Codance
